import Mathlib

/-!
Shallow embedding of the Antigravity Quota Watcher extension entry module
(src/src/extension.ts, the retrying variant of the file): the startup retry
controller (`initialize_extension`), the command handlers registered in
`activate` (agq.refresh, agq.activate, agq.reconnect), the config-change
handler, and `deactivate`.

The asynchronous `initialize_extension(attempt)` is split at its single
`await` point into `init_begin` (the synchronous prefix up to the call of
`process_finder.detect_process_info()`) and `init_settle` (the continuation
that runs once that promise settles, with the outcome given as an oracle
`DetectResult`). `setTimeout(() => initialize_extension(attempt + 1), delay)`
is modelled by appending a pending `(delay, attempt + 1)` entry to the timer
list and recording a `schedule` effect; a timer firing is an explicit event.
Interleaving of the event-loop turns is modelled by a step relation over
events.
-/

namespace AGQ

/-- Configuration snapshot as read from `config_manager.get_config()`:
`enabled`, `polling_interval` (milliseconds), `show_prompt_credits`. -/
structure Config where
  enabled : Bool
  polling_interval : Nat
  show_prompt_credits : Bool
deriving DecidableEq

/-- The validated connection data returned by
`process_finder.detect_process_info()` on success. -/
structure ProcessInfo where
  extension_port : Nat
  connect_port : Nat
  csrf_token : String
deriving DecidableEq

/-- Outcome of one `detect_process_info()` call: a found `ProcessInfo`,
a null result, or a thrown exception. -/
inductive DetectResult where
  | found : ProcessInfo → DetectResult
  | notFound : DetectResult
  | exception : DetectResult
deriving DecidableEq

/-- Lifecycle signals sent to the status bar (display layer).
`loading` carries the optional attempt-count pair that the source formats
as the string `(attempt/MAX_ATTEMPTS)` and passes to `show_loading`. -/
inductive Signal where
  | loading : Option (Nat × Nat) → Signal
  | error : String → Signal
  | waiting : Signal
deriving DecidableEq

/-- Observable effects of one event-loop turn: status-bar signals, user
dialog messages, quota-manager calls, status-bar disposal, and the
`setTimeout` registrations (`schedule delay attempt`). -/
inductive Effect where
  | sig : Signal → Effect
  | info_message : String → Effect
  | error_message : String → Effect
  | qm_init : Nat → String → Effect
  | qm_start_polling : Nat → Effect
  | qm_stop_polling : Effect
  | qm_fetch_quota : Effect
  | sb_dispose : Effect
  | schedule : Nat → Nat → Effect
deriving DecidableEq

/-- Module state of extension.ts: the `is_initialized` flag, the pending
`setTimeout` callbacks (delay in ms, attempt number), the detection calls
currently awaiting settlement (attempt number, config snapshot taken at the
start of that `initialize_extension` call), the quota poller timer
(`some interval` when polling), and whether the status bar was disposed. -/
structure ExtState where
  is_initialized : Bool
  timers : List (Nat × Nat)
  inflight : List (Nat × Config)
  polling : Option Nat
  disposed : Bool
deriving DecidableEq

/-- Fresh module state right after `activate` constructs the managers. -/
def init_state : ExtState :=
  { is_initialized := false, timers := [], inflight := [], polling := none,
    disposed := false }

/-- `MAX_PHASE1_ATTEMPTS = 12` from initialize_extension. -/
def MAX_PHASE1_ATTEMPTS : Nat := 12

/-- `MAX_PHASE2_ATTEMPTS = 9` from initialize_extension. -/
def MAX_PHASE2_ATTEMPTS : Nat := 9

/-- `MAX_ATTEMPTS = MAX_PHASE1_ATTEMPTS + MAX_PHASE2_ATTEMPTS = 21`. -/
def MAX_ATTEMPTS : Nat := MAX_PHASE1_ATTEMPTS + MAX_PHASE2_ATTEMPTS

/-- Synchronous prefix of `initialize_extension(attempt)`: the
`is_initialized` early return, reading the config, and
`status_bar.show_loading(attempt > 0 ? "(attempt/MAX_ATTEMPTS)" : undefined)`;
then the detection call is put in flight. -/
def init_begin (cfg : Config) (attempt : Nat) (s : ExtState) :
    ExtState × List Effect :=
  if s.is_initialized then (s, [])
  else
    ({ s with inflight := s.inflight ++ [(attempt, cfg)] },
     [Effect.sig (Signal.loading
        (if attempt > 0 then some (attempt, MAX_ATTEMPTS) else none))])

/-- Continuation of `initialize_extension(attempt)` after
`detect_process_info()` settles with outcome `r`, for the config snapshot
`cfg` taken at the start of the call. Mirrors the `if (process_info)` /
`else` / `catch` branches of the source, including the phased retry table
and the waiting state. -/
def init_settle (attempt : Nat) (cfg : Config) (r : DetectResult)
    (s : ExtState) : ExtState × List Effect :=
  match r with
  | DetectResult.found info =>
      ({ s with
          is_initialized := true,
          polling :=
            if cfg.enabled then some cfg.polling_interval else s.polling },
       [Effect.qm_init info.connect_port info.csrf_token] ++
         (if cfg.enabled then [Effect.qm_start_polling cfg.polling_interval]
          else []))
  | DetectResult.notFound =>
      if attempt < MAX_PHASE1_ATTEMPTS then
        ({ s with timers := s.timers ++ [(5000, attempt + 1)] },
         [Effect.schedule 5000 (attempt + 1)])
      else if attempt < MAX_ATTEMPTS then
        ({ s with timers := s.timers ++ [(60000, attempt + 1)] },
         [Effect.schedule 60000 (attempt + 1)])
      else
        (s, [Effect.sig Signal.waiting])
  | DetectResult.exception =>
      if attempt < MAX_ATTEMPTS then
        let d := if attempt < MAX_PHASE1_ATTEMPTS then 5000 else 60000
        ({ s with timers := s.timers ++ [(d, attempt + 1)] },
         [Effect.schedule d (attempt + 1)])
      else
        (s, [Effect.sig Signal.waiting])

/-- The `agq.reconnect` command handler: information message,
`is_initialized = false`, `quota_manager.stop_polling()`,
`status_bar.show_loading()`, then `initialize_extension()` at attempt 0. -/
def reconnect_cmd (cfg : Config) (s : ExtState) : ExtState × List Effect :=
  let s1 : ExtState := { s with is_initialized := false, polling := none }
  let b := init_begin cfg 0 s1
  (b.1,
   [Effect.info_message "Reconnecting to Antigravity process...",
    Effect.qm_stop_polling, Effect.sig (Signal.loading none)] ++ b.2)

/-- The `agq.activate` command handler: if not initialized, call
`initialize_extension()` (attempt 0); otherwise show an information
message. -/
def activate_cmd (cfg : Config) (s : ExtState) : ExtState × List Effect :=
  if s.is_initialized then (s, [Effect.info_message "AGQ is already active"])
  else init_begin cfg 0 s

/-- The `agq.refresh` command handler: information message and one
`quota_manager.fetch_quota()` call. -/
def refresh_cmd (s : ExtState) : ExtState × List Effect :=
  (s, [Effect.info_message "Refreshing Quota...", Effect.qm_fetch_quota])

/-- The config-change handler registered in `activate`: start polling with
the new interval when `enabled`, stop polling otherwise. -/
def on_config_change (new_config : Config) (s : ExtState) :
    ExtState × List Effect :=
  if new_config.enabled then
    ({ s with polling := some new_config.polling_interval },
     [Effect.qm_start_polling new_config.polling_interval])
  else
    ({ s with polling := none }, [Effect.qm_stop_polling])

/-- `deactivate()`: `quota_manager?.stop_polling()` and
`status_bar?.dispose()`. -/
def deactivate (s : ExtState) : ExtState × List Effect :=
  ({ s with polling := none, disposed := true },
   [Effect.qm_stop_polling, Effect.sb_dispose])

/-- Event-loop turns that can run against the module state. `startup_init`
is the `initialize_extension()` call made at the end of `activate`;
`timer_fires i` runs the callback of the pending timer at index `i`;
`settle i r` resumes the in-flight detection at index `i` with outcome
`r`. -/
inductive Event where
  | startup_init : Config → Event
  | timer_fires : Nat → Config → Event
  | settle : Nat → DetectResult → Event
  | cmd_reconnect : Config → Event
  | cmd_activate : Config → Event
  | cmd_refresh : Event
  | config_change : Config → Event
  | deact : Event
deriving DecidableEq

/-- One event-loop turn. `none` means the event is not enabled (no such
pending timer or in-flight call). -/
def step (s : ExtState) (e : Event) : Option (ExtState × List Effect) :=
  match e with
  | Event.startup_init cfg => some (init_begin cfg 0 s)
  | Event.timer_fires i cfg =>
      match s.timers.get? i with
      | some td =>
          some (init_begin cfg td.2 { s with timers := s.timers.eraseIdx i })
      | none => none
  | Event.settle i r =>
      match s.inflight.get? i with
      | some ac =>
          some (init_settle ac.1 ac.2 r
            { s with inflight := s.inflight.eraseIdx i })
      | none => none
  | Event.cmd_reconnect cfg => some (reconnect_cmd cfg s)
  | Event.cmd_activate cfg => some (activate_cmd cfg s)
  | Event.cmd_refresh => some (refresh_cmd s)
  | Event.config_change cfg => some (on_config_change cfg s)
  | Event.deact => some (deactivate s)

/-- Run a sequence of event-loop turns, concatenating the effect traces. -/
def run (s : ExtState) : List Event → Option (ExtState × List Effect)
  | [] => some (s, [])
  | e :: es =>
      (step s e).bind fun st =>
        (run st.1 es).map fun st2 => (st2.1, st.2 ++ st2.2)

/-- The delay of a `schedule` effect, for extracting the sequence of
scheduled retry delays from an effect trace. -/
def sched_delay : Effect → Option Nat
  | Effect.schedule d _ => some d
  | _ => none

/-- `n` rounds of the all-failure schedule: in each round the in-flight
detection settles as not-found and then the newly scheduled timer fires. -/
def fail_rounds (cfg : Config) : Nat → List Event
  | 0 => []
  | n + 1 =>
      Event.settle 0 DetectResult.notFound :: Event.timer_fires 0 cfg ::
        fail_rounds cfg n

/-- The complete all-failure run: startup call, 21 failure rounds (attempts
0 through 20, each scheduling a retry), and the final settlement of attempt
21 as not-found. -/
def all_fail_events (cfg : Config) : List Event :=
  Event.startup_init cfg :: fail_rounds cfg 21 ++
    [Event.settle 0 DetectResult.notFound]

/-- The retry delay the controller picks after a failure of attempt `k`
(for `k < 21`): 5000 ms in the fast phase, 60000 ms in the slow phase. -/
def fail_delay (k : Nat) : Nat := if k < 12 then 5000 else 60000

/-- The module state in which exactly the detection for attempt `k` is in
flight and nothing else is going on. -/
def midState (cfg : Config) (k : Nat) : ExtState :=
  { is_initialized := false, timers := [], inflight := [(k, cfg)],
    polling := none, disposed := false }

/-- The effect trace of `n` all-failure rounds starting at attempt `k`:
each round schedules the retry for the next attempt and shows the loading
signal with that attempt count. -/
def round_trace : Nat → Nat → List Effect
  | _, 0 => []
  | k, n + 1 =>
      Effect.schedule (fail_delay k) (k + 1) ::
        Effect.sig (Signal.loading (some (k + 1, MAX_ATTEMPTS))) ::
          round_trace (k + 1) n

/-- The effect trace of the complete all-failure run. -/
def fail_trace : List Effect :=
  Effect.sig (Signal.loading none) ::
    (round_trace 0 21 ++ [Effect.sig Signal.waiting])

/-- A concrete enabled config (polling interval 120000 ms) used in
counterexamples and witnesses. -/
def cfgA : Config := ⟨true, 120000, false⟩

/-- A concrete disabled config used in counterexamples. -/
def cfgOff : Config := ⟨false, 120000, false⟩

/-- A concrete detection result (extension port 7000, connect port 7001,
token "tok") used in counterexamples and witnesses. -/
def infoA : ProcessInfo := ⟨7000, 7001, "tok"⟩

/-- A concrete state with a pending 5000 ms timer for attempt 1 and nothing
else going on. -/
def sPend : ExtState :=
  { is_initialized := false, timers := [(5000, 1)], inflight := [],
    polling := none, disposed := false }

/-- A concrete state mid retry sequence: a pending 60000 ms timer for
attempt 13, polling active. -/
def sMid : ExtState :=
  { is_initialized := false, timers := [(60000, 13)], inflight := [],
    polling := some 120000, disposed := false }

/-- A concrete state in which the extension is initialized and polling. -/
def sInit : ExtState :=
  { is_initialized := true, timers := [], inflight := [],
    polling := some 120000, disposed := false }

/-- Marks the event-loop turns of the automatic machinery and of handlers
that do not start a detection chain: everything except the startup
`initialize_extension()` call and the manual activate and reconnect
commands. -/
def autoEvent : Event → Bool
  | Event.startup_init _ => false
  | Event.cmd_reconnect _ => false
  | Event.cmd_activate _ => false
  | _ => true

/-- Number of detection attempts currently in flight or scheduled. -/
def chain_load (s : ExtState) : Nat :=
  s.inflight.length + s.timers.length

theorem step_settle_mid (cfg : Config) (k : Nat) (hk : k < 21) :
    step (midState cfg k) (Event.settle 0 DetectResult.notFound) =
      some (⟨false, [(fail_delay k, k + 1)], [], none, false⟩,
        [Effect.schedule (fail_delay k) (k + 1)]) := by
  have h : step (midState cfg k) (Event.settle 0 DetectResult.notFound) =
      some (init_settle k cfg DetectResult.notFound
        ⟨false, [], [], none, false⟩) := rfl
  have h12 : MAX_PHASE1_ATTEMPTS = 12 := rfl
  have h21 : MAX_ATTEMPTS = 21 := rfl
  rw [h]
  simp only [init_settle, fail_delay, h12, h21]
  rcases Nat.lt_or_ge k 12 with h1 | h1
  · rw [if_pos h1, if_pos h1]
    rfl
  · rw [if_neg (Nat.not_lt.mpr h1), if_neg (Nat.not_lt.mpr h1), if_pos hk]
    rfl

theorem step_fire_mid (cfg : Config) (k d : Nat) :
    step (⟨false, [(d, k + 1)], [], none, false⟩ : ExtState)
        (Event.timer_fires 0 cfg) =
      some (midState cfg (k + 1),
        [Effect.sig (Signal.loading (some (k + 1, MAX_ATTEMPTS)))]) := by
  have h : step (⟨false, [(d, k + 1)], [], none, false⟩ : ExtState)
        (Event.timer_fires 0 cfg) =
      some (init_begin cfg (k + 1) ⟨false, [], [], none, false⟩) := rfl
  rw [h]
  simp [init_begin, midState]

theorem run_settle_fire (cfg : Config) (k : Nat) (hk : k < 21)
    (es : List Event) :
    run (midState cfg k) (Event.settle 0 DetectResult.notFound ::
        Event.timer_fires 0 cfg :: es) =
      (run (midState cfg (k + 1)) es).map (fun p =>
        (p.1, Effect.schedule (fail_delay k) (k + 1) ::
          Effect.sig (Signal.loading (some (k + 1, MAX_ATTEMPTS))) ::
            p.2)) := by
  have h1 := step_settle_mid cfg k hk
  have h2 := step_fire_mid cfg k (fail_delay k)
  simp only [run, h1, h2, Option.some_bind]
  cases hr : run (midState cfg (k + 1)) es with
  | none => rfl
  | some p => rfl

theorem run_fail_rounds (cfg : Config) (n : Nat) :
    ∀ k : Nat, k + n ≤ 21 → ∀ es : List Event,
      run (midState cfg k) (fail_rounds cfg n ++ es) =
        (run (midState cfg (k + n)) es).map (fun p =>
          (p.1, round_trace k n ++ p.2)) := by
  induction n with
  | zero =>
      intro k _ es
      simp only [fail_rounds, round_trace, List.nil_append, Nat.add_zero]
      cases hr : run (midState cfg k) es with
      | none => rfl
      | some p => rfl
  | succ n ih =>
      intro k hk es
      have hlt : k < 21 := by omega
      simp only [fail_rounds, List.cons_append]
      rw [run_settle_fire cfg k hlt (fail_rounds cfg n ++ es)]
      rw [ih (k + 1) (by omega) es]
      have harr : k + 1 + n = k + (n + 1) := by omega
      rw [harr]
      cases hr : run (midState cfg (k + (n + 1))) es with
      | none => rfl
      | some p => simp [round_trace]

/-- Claim C1: in a run where the resolver returns a not-found result on every
attempt, the startup retry controller schedules exactly 12 delays of 5000 ms
(scheduled by the failures of attempts 0 through 11) and then exactly 9
delays of 60000 ms (attempts 12 through 20), then emits the waiting signal;
afterwards no timer is pending and no detection is in flight, so no
automatic attempt can fire. -/
theorem C1_retry_schedule (cfg : Config) :
    ∃ st tr, run init_state (all_fail_events cfg) = some (st, tr) ∧
      tr.filterMap sched_delay =
        List.replicate 12 5000 ++ List.replicate 9 60000 ∧
      Effect.sig Signal.waiting ∈ tr ∧
      st.timers = [] ∧ st.inflight = [] ∧ st.is_initialized = false ∧
      (∀ i c, step st (Event.timer_fires i c) = none) ∧
      (∀ i r, step st (Event.settle i r) = none) := by
  refine ⟨init_state, fail_trace, ?_, by decide, by decide, rfl, rfl, rfl,
    fun i c => rfl, fun i r => rfl⟩
  have h0 : run init_state (all_fail_events cfg) =
      (run (midState cfg 0)
          (fail_rounds cfg 21 ++ [Event.settle 0 DetectResult.notFound])).map
        (fun p => (p.1, Effect.sig (Signal.loading none) :: p.2)) := by
    have hs : step init_state (Event.startup_init cfg) =
        some (midState cfg 0, [Effect.sig (Signal.loading none)]) := rfl
    simp only [all_fail_events, run, hs, Option.some_bind]
    cases hr : run (midState cfg 0)
        (fail_rounds cfg 21 ++ [Event.settle 0 DetectResult.notFound]) with
    | none => rfl
    | some p => rfl
  have h1 := run_fail_rounds cfg 21 0 (by omega)
    [Event.settle 0 DetectResult.notFound]
  have h2 : run (midState cfg 21) [Event.settle 0 DetectResult.notFound] =
      some (init_state, [Effect.sig Signal.waiting]) := rfl
  rw [h0, h1, h2]
  rfl

/-- Witness for C1 at the concrete config. -/
theorem C1_retry_schedule_witness :
    ∃ st tr, run init_state (all_fail_events cfgA) = some (st, tr) ∧
      tr.filterMap sched_delay =
        List.replicate 12 5000 ++ List.replicate 9 60000 ∧
      Effect.sig Signal.waiting ∈ tr := by
  obtain ⟨st, tr, h1, h2, h3, _⟩ := C1_retry_schedule cfgA
  exact ⟨st, tr, h1, h2, h3⟩

/-- Claim C2, counterexample: from a state with a pending scheduled attempt
(the 5000 ms timer for attempt 1), the reconnect command leaves that timer
pending, and the previously scheduled attempt can still fire afterwards:
after the reconnect and the old timer firing, both the reconnect chain
(attempt 0) and the old chain (attempt 1) are in flight. So the reconnect
command does not cancel the pending scheduled detection attempt. -/
theorem C2_counterexample :
    (reconnect_cmd cfgA sPend).1.timers = [(5000, 1)] ∧
    (run sPend [Event.cmd_reconnect cfgA, Event.timer_fires 0 cfgA]).map
      (fun p => p.1.inflight.map Prod.fst) = some [0, 1] := by
  decide

/-- Claim C2, amended: issuing the reconnect command in any state stops
polling, clears the initialized flag, and starts a new detection chain at
attempt 0 (whose next delay after a failed attempt is 5000 ms); it does not
cancel pending scheduled detection attempts: the timer list is left
unchanged, so a previously scheduled attempt may still fire afterwards. -/
theorem C2_amended_reconnect (cfg : Config) (s : ExtState) :
    (reconnect_cmd cfg s).1.is_initialized = false ∧
    (reconnect_cmd cfg s).1.polling = none ∧
    (reconnect_cmd cfg s).1.timers = s.timers ∧
    (reconnect_cmd cfg s).1.inflight = s.inflight ++ [(0, cfg)] ∧
    (∀ t : ExtState, (init_settle 0 cfg DetectResult.notFound t).2 =
      [Effect.schedule 5000 1]) := by
  refine ⟨rfl, rfl, rfl, rfl, fun t => rfl⟩

/-- Witness for C2 amended at the concrete pending state. -/
theorem C2_amended_reconnect_witness :
    (reconnect_cmd cfgA sPend).1.timers = [(5000, 1)] ∧
    (reconnect_cmd cfgA sPend).1.inflight = [(0, cfgA)] := by
  have h := C2_amended_reconnect cfgA sPend
  exact ⟨by rw [h.2.2.1]; decide, by rw [h.2.2.2.1]; decide⟩

theorem auto_step_load (s : ExtState) (e : Event) (ha : autoEvent e = true)
    (hs : chain_load s ≤ 1) :
    ∀ p ∈ step s e, chain_load p.1 ≤ 1 := by
  intro p hp
  cases e with
  | startup_init cfg => simp [autoEvent] at ha
  | cmd_reconnect cfg => simp [autoEvent] at ha
  | cmd_activate cfg => simp [autoEvent] at ha
  | cmd_refresh =>
      simp only [step, Option.mem_def, Option.some.injEq] at hp
      subst hp
      exact hs
  | config_change cfg =>
      simp only [step, Option.mem_def, Option.some.injEq] at hp
      subst hp
      cases hcfg : cfg.enabled <;>
        simp only [on_config_change, hcfg, if_true, if_false,
          Bool.false_eq_true, ite_false, ite_true] <;>
        simpa [chain_load] using hs
  | deact =>
      simp only [step, Option.mem_def, Option.some.injEq] at hp
      subst hp
      exact hs
  | timer_fires i cfg =>
      obtain ⟨ini, tms, fls, pol, dsp⟩ := s
      simp only [chain_load] at hs
      cases tms with
      | nil =>
          simp only [step, List.get?] at hp
          exact absurd hp (by simp)
      | cons td rest =>
          cases rest with
          | cons td2 rest2 => simp at hs; omega
          | nil =>
              cases fls with
              | cons f fr => simp at hs
              | nil =>
                  cases i with
                  | succ j =>
                      simp only [step, List.get?] at hp
                      exact absurd hp (by simp)
                  | zero =>
                      simp only [step, List.get?, Option.mem_def,
                        Option.some.injEq] at hp
                      subst hp
                      cases ini <;> simp [init_begin, chain_load]
  | settle i r =>
      obtain ⟨ini, tms, fls, pol, dsp⟩ := s
      simp only [chain_load] at hs
      cases fls with
      | nil =>
          simp only [step, List.get?] at hp
          exact absurd hp (by simp)
      | cons ac rest =>
          cases rest with
          | cons ac2 rest2 => simp at hs; omega
          | nil =>
              cases tms with
              | cons t tr2 => simp at hs
              | nil =>
                  cases i with
                  | succ j =>
                      simp only [step, List.get?] at hp
                      exact absurd hp (by simp)
                  | zero =>
                      simp only [step, List.get?, Option.mem_def,
                        Option.some.injEq] at hp
                      subst hp
                      cases r with
                      | found info => simp [init_settle, chain_load]
                      | notFound =>
                          simp only [init_settle]
                          split_ifs <;> simp [chain_load]
                      | exception =>
                          simp only [init_settle]
                          split_ifs <;> simp [chain_load]

/-- Claim C4: an exception thrown during a detection attempt is handled
identically to a not-found result; for attempt < 12 a 5000 ms retry is
scheduled, for 12 ≤ attempt < 21 a 60000 ms retry is scheduled, and at
attempt ≥ 21 the controller emits the waiting signal and schedules
nothing. The continuation is a total function, so the exception never
propagates out of the controller. -/
theorem C4_exception_like_not_found (a : Nat) (cfg : Config) (s : ExtState) :
    init_settle a cfg DetectResult.exception s =
      init_settle a cfg DetectResult.notFound s ∧
    (a < 12 → init_settle a cfg DetectResult.exception s =
      ({ s with timers := s.timers ++ [(5000, a + 1)] },
       [Effect.schedule 5000 (a + 1)])) ∧
    (12 ≤ a → a < 21 → init_settle a cfg DetectResult.exception s =
      ({ s with timers := s.timers ++ [(60000, a + 1)] },
       [Effect.schedule 60000 (a + 1)])) ∧
    (21 ≤ a → init_settle a cfg DetectResult.exception s =
      (s, [Effect.sig Signal.waiting])) := by
  have h12 : MAX_PHASE1_ATTEMPTS = 12 := rfl
  have h21 : MAX_ATTEMPTS = 21 := rfl
  unfold init_settle
  rw [h12, h21]
  rcases Nat.lt_or_ge a 12 with h1 | h1
  · have h2 : a < 21 := by omega
    simp [h1, h2]
  · rcases Nat.lt_or_ge a 21 with h2 | h2
    · simp [h2, Nat.not_lt.mpr h1]
    · simp [Nat.not_lt.mpr h1, Nat.not_lt.mpr h2]

/-- Witness for C4 at concrete attempts 5, 15 and 21. -/
theorem C4_exception_like_not_found_witness :
    init_settle 5 cfgA DetectResult.exception init_state =
      ({ init_state with timers := [(5000, 6)] },
       [Effect.schedule 5000 6]) ∧
    init_settle 15 cfgA DetectResult.exception init_state =
      ({ init_state with timers := [(60000, 16)] },
       [Effect.schedule 60000 16]) ∧
    init_settle 21 cfgA DetectResult.exception init_state =
      (init_state, [Effect.sig Signal.waiting]) :=
  ⟨(C4_exception_like_not_found 5 cfgA init_state).2.1 (by decide),
   (C4_exception_like_not_found 15 cfgA init_state).2.2.1 (by decide)
     (by decide),
   (C4_exception_like_not_found 21 cfgA init_state).2.2.2 (by decide)⟩

/-- Claim C7: entering the waiting state is silent: at attempt ≥ 21 the
effect trace of the settling attempt is exactly the waiting signal — no
error signal, no error message dialog, nothing else — on both the
not-found path and the exception path, and the module state is left
unchanged. -/
theorem C7_waiting_silent (a : Nat) (cfg : Config) (s : ExtState)
    (h : 21 ≤ a) :
    init_settle a cfg DetectResult.notFound s =
      (s, [Effect.sig Signal.waiting]) ∧
    init_settle a cfg DetectResult.exception s =
      (s, [Effect.sig Signal.waiting]) := by
  have h12 : MAX_PHASE1_ATTEMPTS = 12 := rfl
  have h21 : MAX_ATTEMPTS = 21 := rfl
  unfold init_settle
  rw [h12, h21]
  have h1 : ¬ a < 12 := by omega
  have h2 : ¬ a < 21 := by omega
  simp [h1, h2]

/-- Witness for C7 at attempt 21. -/
theorem C7_waiting_silent_witness :
    init_settle 21 cfgA DetectResult.notFound init_state =
      (init_state, [Effect.sig Signal.waiting]) :=
  (C7_waiting_silent 21 cfgA init_state (by decide)).1

/-- Claim C8: when a detection attempt begins on a non-initialized state, the
loading signal carries the attempt-count pair (attempt, 21) exactly when
the attempt number is positive, and carries no pair exactly when the
attempt number is 0. -/
theorem C8_loading_attempt_pair (a : Nat) (cfg : Config) (s : ExtState)
    (h : s.is_initialized = false) :
    ((init_begin cfg a s).2 =
        [Effect.sig (Signal.loading (some (a, MAX_ATTEMPTS)))] ↔ 0 < a) ∧
    ((init_begin cfg a s).2 = [Effect.sig (Signal.loading none)] ↔
      a = 0) := by
  unfold init_begin
  rw [h]
  cases a with
  | zero => simp
  | succ n => simp

/-- Witness for C8 at attempts 3 and 0. -/
theorem C8_loading_attempt_pair_witness :
    ((init_begin cfgA 3 init_state).2 =
        [Effect.sig (Signal.loading (some (3, MAX_ATTEMPTS)))]) ∧
    ((init_begin cfgA 0 init_state).2 =
        [Effect.sig (Signal.loading none)]) :=
  ⟨(C8_loading_attempt_pair 3 cfgA init_state rfl).1.mpr (by decide),
   (C8_loading_attempt_pair 0 cfgA init_state rfl).2.mpr rfl⟩

/-- Claim C9: on a configuration change with enabled = true the core calls
start_polling with the configured interval, with enabled = false it calls
stop_polling; and the manual-refresh command performs exactly one
fetch_quota call and changes no state. -/
theorem C9_config_and_refresh (cfg : Config) (s : ExtState) :
    (cfg.enabled = true → on_config_change cfg s =
      ({ s with polling := some cfg.polling_interval },
       [Effect.qm_start_polling cfg.polling_interval])) ∧
    (cfg.enabled = false → on_config_change cfg s =
      ({ s with polling := none }, [Effect.qm_stop_polling])) ∧
    (refresh_cmd s).2.count Effect.qm_fetch_quota = 1 ∧
    (refresh_cmd s).1 = s := by
  refine ⟨fun he => ?_, fun he => ?_, ?_, rfl⟩
  · simp [on_config_change, he]
  · simp [on_config_change, he]
  · rfl

/-- Witness for C9 with an enabled and a disabled config. -/
theorem C9_config_and_refresh_witness :
    on_config_change cfgA init_state =
      ({ init_state with polling := some 120000 },
       [Effect.qm_start_polling 120000]) ∧
    on_config_change cfgOff init_state =
      ({ init_state with polling := none }, [Effect.qm_stop_polling]) :=
  ⟨(C9_config_and_refresh cfgA init_state).1 (by decide),
   (C9_config_and_refresh cfgOff init_state).2.1 (by decide)⟩

/-- Claim C10: deactivate stops polling and disposes the status bar and
changes nothing else: the initialized flag, the pending timers and the
in-flight detections are untouched. Consequently a retry scheduled before
deactivation can still fire afterwards and, on success, install the
connection and restart polling, as the concrete run shows: deactivate,
then the pending timer for attempt 13 fires, then the detection succeeds —
the connection is installed and polling restarts. -/
theorem C10_deactivate_frame (s : ExtState) :
    deactivate s =
      ({ s with polling := none, disposed := true },
       [Effect.qm_stop_polling, Effect.sb_dispose]) ∧
    (deactivate s).1.is_initialized = s.is_initialized ∧
    (deactivate s).1.timers = s.timers ∧
    (deactivate s).1.inflight = s.inflight ∧
    (run sMid
        [Event.deact, Event.timer_fires 0 cfgA,
         Event.settle 0 (DetectResult.found infoA)]).map
      (fun p => (p.1.is_initialized, p.1.polling,
        decide (Effect.qm_init 7001 "tok" ∈ p.2),
        decide (Effect.qm_start_polling 120000 ∈ p.2))) =
      some (true, some 120000, true, true) := by
  refine ⟨rfl, rfl, rfl, rfl, ?_⟩
  decide

/-- Witness for C10 at the concrete pending state. -/
theorem C10_deactivate_frame_witness :
    (deactivate sPend).1.timers = [(5000, 1)] ∧
    (deactivate sPend).1.is_initialized = false := by
  have h := C10_deactivate_frame sPend
  exact ⟨by rw [h.2.2.1]; decide, by rw [h.2.1]; decide⟩

/-- Claim C3, counterexample: the reconnect command issued while the startup
detection attempt is still in flight starts a second detection chain, so two
discovery attempts are in flight at the same instant — the interleaving of
the entry points does produce two concurrently running detection chains. -/
theorem C3_counterexample :
    (run init_state
        [Event.startup_init cfgA, Event.cmd_reconnect cfgA]).map
      (fun p => p.1.inflight.length) = some 2 := by
  decide

/-- Claim C3, amended: the automatic machinery alone keeps at most one
discovery attempt in flight or scheduled: under any sequence of event-loop
turns that contains no startup call and no manual activate or reconnect
command, a state with at most one pending-or-in-flight detection only
steps to states with at most one pending-or-in-flight detection. Two
concurrent detection chains can arise only from the manual entry points. -/
theorem C3_amended_single_flight (es : List Event)
    (hauto : ∀ e ∈ es, autoEvent e = true) :
    ∀ s : ExtState, chain_load s ≤ 1 →
      ∀ st tr, run s es = some (st, tr) → chain_load st ≤ 1 := by
  induction es with
  | nil =>
      intro s hs st tr h
      simp only [run, Option.some.injEq, Prod.mk.injEq] at h
      obtain ⟨h1, _⟩ := h
      exact h1 ▸ hs
  | cons e es ih =>
      intro s hs st tr h
      cases hstep : step s e with
      | none => rw [run, hstep] at h; simp at h
      | some p =>
          rw [run, hstep] at h
          simp only [Option.some_bind] at h
          cases hrun : run p.1 es with
          | none => rw [hrun] at h; simp at h
          | some q =>
              rw [hrun] at h
              simp only [Option.map_some', Option.some.injEq,
                Prod.mk.injEq] at h
              obtain ⟨h1, _⟩ := h
              have hp1 : chain_load p.1 ≤ 1 :=
                auto_step_load s e (hauto e (by simp)) hs p
                  (by rw [hstep]; rfl)
              have hq : chain_load q.1 ≤ 1 :=
                ih (fun e2 he2 => hauto e2 (by simp [he2])) p.1 hp1
                  q.1 q.2 (by rw [hrun])
              exact h1 ▸ hq

/-- Witness for C3 amended: a not-found settlement of the single in-flight
startup attempt keeps the load at one. -/
theorem C3_amended_single_flight_witness :
    chain_load init_state ≤ 1 ∧
    (∀ st tr, run (midState cfgA 0) [Event.settle 0 DetectResult.notFound] =
        some (st, tr) → chain_load st ≤ 1) :=
  ⟨by decide,
   C3_amended_single_flight [Event.settle 0 DetectResult.notFound]
     (by decide) (midState cfgA 0) (by decide)⟩

/-- Claim C5, counterexample: while a retry sequence is in progress (the
60000 ms timer for attempt 13 is pending and the extension is not
initialized), the manual activate command — not the reconnect command —
starts a detection chain at attempt 0, so the reconnect command is not the
only operation that restarts the sequence at attempt 0. -/
theorem C5_counterexample :
    (step sMid (Event.cmd_activate cfgA)).map
      (fun p => (p.1.inflight, p.1.timers)) =
    some ([(0, cfgA)], [(60000, 13)]) := by
  decide

/-- Claim C5, amended: the attempt counter advances by exactly one on each
failed resolution (a failure of attempt a < 21 schedules attempt a + 1),
and the reconnect command restarts a chain at attempt 0; but the manual
activate command, issued while the extension is not initialized — which
includes any moment during a retry sequence — also starts a detection
chain at attempt 0 (when the extension is initialized it only shows a
message). -/
theorem C5_amended_attempt_counter (a : Nat) (cfg : Config) (s : ExtState) :
    (a < 21 → ∀ r, r = DetectResult.notFound ∨ r = DetectResult.exception →
      (init_settle a cfg r s).1.timers =
        s.timers ++ [(fail_delay a, a + 1)]) ∧
    (reconnect_cmd cfg s).1.inflight = s.inflight ++ [(0, cfg)] ∧
    (s.is_initialized = false →
      (activate_cmd cfg s).1.inflight = s.inflight ++ [(0, cfg)]) ∧
    (s.is_initialized = true →
      activate_cmd cfg s =
        (s, [Effect.info_message "AGQ is already active"])) := by
  have h12 : MAX_PHASE1_ATTEMPTS = 12 := rfl
  have h21 : MAX_ATTEMPTS = 21 := rfl
  refine ⟨fun ha r hr => ?_, rfl, fun hini => ?_, fun hini => ?_⟩
  · rcases hr with hr | hr <;> subst hr <;>
      simp only [init_settle, fail_delay, h12, h21] <;>
      rcases Nat.lt_or_ge a 12 with h1 | h1
    · rw [if_pos h1, if_pos h1]
    · rw [if_neg (Nat.not_lt.mpr h1), if_pos ha,
        if_neg (Nat.not_lt.mpr h1)]
    · rw [if_pos ha, if_pos h1]
    · rw [if_pos ha, if_neg (Nat.not_lt.mpr h1)]
  · simp [activate_cmd, init_begin, hini]
  · simp [activate_cmd, hini]

/-- Witness for C5 amended: a failure of attempt 3 schedules attempt 4
after 5000 ms; activate on a non-initialized state starts attempt 0; on an
initialized state it only shows a message. -/
theorem C5_amended_attempt_counter_witness :
    (init_settle 3 cfgA DetectResult.notFound sPend).1.timers =
      [(5000, 1), (5000, 4)] ∧
    (activate_cmd cfgA sPend).1.inflight = [(0, cfgA)] ∧
    activate_cmd cfgA sInit =
      (sInit, [Effect.info_message "AGQ is already active"]) :=
  ⟨by
    have h := (C5_amended_attempt_counter 3 cfgA sPend).1 (by decide)
      DetectResult.notFound (Or.inl rfl)
    simpa using h,
   by
    have h := (C5_amended_attempt_counter 3 cfgA sPend).2.2.1 (by decide)
    simpa using h,
   (C5_amended_attempt_counter 3 cfgA sInit).2.2.2 (by decide)⟩

/-- Claim C6, counterexample: with a configuration whose enabled flag is
false, a successful resolution installs the connection and sets the
initialized flag but does not start polling — no start_polling call is
made and the poller stays idle — so success does not always transition to
active polling. -/
theorem C6_counterexample :
    init_settle 0 cfgOff (DetectResult.found infoA) init_state =
      ({ init_state with is_initialized := true },
       [Effect.qm_init 7001 "tok"]) ∧
    (init_settle 0 cfgOff (DetectResult.found infoA) init_state).1.polling =
      none ∧
    Effect.qm_start_polling 120000 ∉
      (init_settle 0 cfgOff (DetectResult.found infoA) init_state).2 := by
  refine ⟨?_, rfl, ?_⟩ <;> decide

/-- Claim C6, amended: on every attempt on which the resolver returns a
connection, the controller installs that connection (the first effect is
the quota-manager init with the resolved port and token), starts polling
exactly when the config snapshot of that attempt has enabled = true, sets
the initialized flag, and halts permanently: any later invocation of the
initialization routine on an initialized state returns immediately with no
effect and no new detection attempt, until the reconnect command clears
the initialized flag again. -/
theorem C6_amended_success_halts (a : Nat) (cfg : Config)
    (info : ProcessInfo) (s : ExtState) :
    (init_settle a cfg (DetectResult.found info) s).1.is_initialized =
      true ∧
    (cfg.enabled = true →
      init_settle a cfg (DetectResult.found info) s =
        ({ s with is_initialized := true,
                  polling := some cfg.polling_interval },
         [Effect.qm_init info.connect_port info.csrf_token,
          Effect.qm_start_polling cfg.polling_interval])) ∧
    (cfg.enabled = false →
      init_settle a cfg (DetectResult.found info) s =
        ({ s with is_initialized := true },
         [Effect.qm_init info.connect_port info.csrf_token])) ∧
    (∀ (cfg2 : Config) (a2 : Nat) (t : ExtState),
      t.is_initialized = true → init_begin cfg2 a2 t = (t, [])) ∧
    (reconnect_cmd cfg s).1.is_initialized = false := by
  refine ⟨rfl, fun he => ?_, fun he => ?_,
    fun cfg2 a2 t ht => ?_, rfl⟩
  · simp [init_settle, he]
  · simp [init_settle, he]
  · simp [init_begin, ht]

/-- Witness for C6 amended: success with an enabled config starts polling
and success with a disabled config does not; a later invocation on the
initialized state is a no-op. -/
theorem C6_amended_success_halts_witness :
    init_settle 2 cfgA (DetectResult.found infoA) init_state =
      ({ init_state with is_initialized := true, polling := some 120000 },
       [Effect.qm_init 7001 "tok", Effect.qm_start_polling 120000]) ∧
    init_settle 2 cfgOff (DetectResult.found infoA) init_state =
      ({ init_state with is_initialized := true },
       [Effect.qm_init 7001 "tok"]) ∧
    init_begin cfgA 5 sInit = (sInit, []) :=
  ⟨(C6_amended_success_halts 2 cfgA infoA init_state).2.1 (by decide),
   (C6_amended_success_halts 2 cfgOff infoA init_state).2.2.1 (by decide),
   (C6_amended_success_halts 2 cfgA infoA init_state).2.2.2.1 cfgA 5 sInit
     (by decide)⟩

end AGQ
